import Mathlib

/-!
A shallow embedding of `redis/cluster.py` (redis-cluster).

This file embeds the `Cluster` routing core of `src/redis/cluster.py`:
the address parser (`parse_addr`), the slot-table / pool-registry refresh
(`reset_slots`), per-key routing (`get_pool`), and the redirect-handling
dispatch loop (`execute_command`), and proves properties of the embedding.

Modelling conventions:
* Python strings are Lean `String`s; character-level operations
  (`str.find`, `str.rfind`, slicing, `str.split`, `str.startswith`) are
  re-implemented over `String.data` with Python semantics (including
  negative-index slicing).
* Python dicts used by the code (`self.mapping`, `self.cluster_pools`,
  keyword-argument dicts) are association lists with overwrite-on-insert,
  mirroring `d[k] = v`, `d.pop(k, default)` and `k in d`.
* The external `ConnectionPool` collaborator is a record of its
  construction data; its `execute_command` network primitive and
  `random.randint` are an oracle `Env`, consulted by call index, and every
  pool-level call is logged in an event trace so that claims about which
  calls happen (dispatches, `ASKING`, `CLUSTER SLOTS` queries, disconnects,
  pool constructions) can be stated.  Replies are `Nat`s (their content is
  never inspected by the cluster core).
* The `key_to_slot` collaborator (`redis/crc16.py`, out of scope for the
  routing core) is a parameter of the embedded cluster.
* Exceptions are `Except` values; the distinct Python exception classes
  (`RedisError`, `ClusterError`, `InvalidResponse`, `ResponseError`,
  `ConnectionError`) are constructors of `PErr`.
-/

set_option autoImplicit false

namespace RedisCluster

/-! ## Python-style string primitives (over `String.data`) -/

/-- Index of the first occurrence of `c`, like Python `str.find` (as `Option`). -/
def firstIdx (c : Char) : List Char → Option Nat
  | [] => none
  | x :: xs => if x = c then some 0 else (firstIdx c xs).map (· + 1)

/-- Index of the last occurrence of `c`, like Python `str.rfind` (as `Option`). -/
def lastIdx (c : Char) : List Char → Option Nat
  | [] => none
  | x :: xs =>
    match lastIdx c xs with
    | some i => some (i + 1)
    | none => if x = c then some 0 else none

/-- Python `c in s` membership test. -/
def containsC (c : Char) (cs : List Char) : Bool := cs.any (· = c)

/-- Python slice `s[a:b]` where `b` may be negative (counted from the end). -/
def pyslice (cs : List Char) (a : Nat) (b : Int) : List Char :=
  let stopN : Nat := if b < 0 then ((cs.length : Int) + b).toNat else min b.toNat cs.length
  (cs.take stopN).drop a

/-- Python `str.startswith`. -/
def startsWithS (pre s : String) : Bool := s.data.take pre.data.length = pre.data

/-- Python whitespace test used by no-argument `str.split`. -/
def isWs (c : Char) : Bool := c = ' ' ∨ c = '\t' ∨ c = '\n' ∨ c = '\r'

/-- Auxiliary for `pySplitWs`: `acc` is the (reversed) current token. -/
def splitWsAux : List Char → List Char → List (List Char)
  | [], acc => if acc.isEmpty then [] else [acc.reverse]
  | c :: rest, acc =>
    if isWs c then
      if acc.isEmpty then splitWsAux rest [] else acc.reverse :: splitWsAux rest []
    else splitWsAux rest (c :: acc)

/-- Python no-argument `str.split`: split on whitespace runs, no empty tokens. -/
def pySplitWs (s : String) : List String := (splitWsAux s.data []).map String.mk

/-- Auxiliary for `pySplitChar`. -/
def splitCharAux (sep : Char) : List Char → List Char → List (List Char)
  | [], acc => [acc.reverse]
  | c :: rest, acc =>
    if c = sep then acc.reverse :: splitCharAux sep rest [] else splitCharAux sep rest (c :: acc)

/-- Python `str.split(sep)` for a one-character separator (keeps empty tokens). -/
def pySplitChar (sep : Char) (s : String) : List String :=
  (splitCharAux sep s.data []).map String.mk

/-- One decimal digit, kernel-reducible (used by the embedded `int(...)`). -/
def digitVal (c : Char) : Option Nat :=
  if '0' ≤ c ∧ c ≤ '9' then some (c.toNat - '0'.toNat) else none

/-- Auxiliary for `pyToNat?`. -/
def pyToNatAux : List Char → Nat → Option Nat
  | [], acc => some acc
  | c :: rest, acc =>
    match digitVal c with
    | some d => pyToNatAux rest (acc * 10 + d)
    | none => none

/-- Python `int(s)` on a nonnegative decimal string (`none` = `ValueError`). -/
def pyToNat? (s : String) : Option Nat :=
  match s.data with
  | [] => none
  | cs => pyToNatAux cs 0

/-! ## Python-style dict primitives (association lists, overwrite-on-insert) -/

section Dict

variable {κ : Type} {α : Type} [DecidableEq κ]

/-- Python `d.get(k)` / `d[k]` lookup. -/
def aget : List (κ × α) → κ → Option α
  | [], _ => none
  | (k', v) :: rest, k => if k' = k then some v else aget rest k

/-- Python `d[k] = v`: overwrite the existing binding or append a new one. -/
def aset : List (κ × α) → κ → α → List (κ × α)
  | [], k, v => [(k, v)]
  | (k', v') :: rest, k, v =>
    if k' = k then (k, v) :: rest else (k', v') :: aset rest k v

/-- Python `d.pop(k, None)`: the removed value (if any) and the remaining dict. -/
def apopD : List (κ × α) → κ → Option α × List (κ × α)
  | [], _ => (none, [])
  | (k', v') :: rest, k =>
    if k' = k then (some v', rest)
    else
      let (r, rest') := apopD rest k
      (r, (k', v') :: rest')

end Dict

/-! ## `parse_addr` (`Cluster.parse_addr`, src/redis/cluster.py lines 68-78)

```python
def parse_addr(self, host):
    idx = host.find('@')
    if idx == -1:
        return ''
    if '?' in host:
        e = host.rfind('?')
        return host[idx+1: e]
    else:
        e = host.rfind('/')
        return host[idx+1: e]
```
-/

/-- Python `str.find`: first index or `-1`. -/
def findI (c : Char) (cs : List Char) : Int :=
  match firstIdx c cs with
  | some i => (i : Int)
  | none => -1

/-- Python `str.rfind`: last index or `-1`. -/
def rfindI (c : Char) (cs : List Char) : Int :=
  match lastIdx c cs with
  | some i => (i : Int)
  | none => -1

/-- Embedding of `Cluster.parse_addr`. -/
def parse_addr (host : String) : String :=
  let cs := host.data
  let idx := findI '@' cs
  if idx = -1 then ""
  else if containsC '?' cs then String.mk (pyslice cs (idx + 1).toNat (rfindI '?' cs))
  else String.mk (pyslice cs (idx + 1).toNat (rfindI '/' cs))

/-! ## Data model

`ConnectionPool` (external collaborator) is recorded by its construction
data: either `from_url(url, **kwargs)` or `ConnectionPool(host, port,
**kwargs)`.  `addr` models the `.addr` attribute that `reset_slots`
assigns (`p.addr = addr`); it is `none` for a pool on which the attribute
was never set (accessing it then is an `AttributeError` in Python).
Construction keyword arguments (`**kwargs` forwarded to pools) are a dict
with `Nat` values, enough for `db`/`max_resets` and opaque user options. -/

/-- Pool-construction keyword arguments. -/
abbrev CKw := List (String × Nat)

/-- The external `ConnectionPool`, as its construction data plus `.addr`. -/
structure Pool where
  url : Option String
  host : String
  port : String
  kwargs : CKw
  addr : Option String
  deriving DecidableEq, Repr

instance : Inhabited Pool := ⟨⟨none, "", "", [], none⟩⟩

/-- Values of the `**kwargs` dict that `execute_command` threads through
its recursion: the machinery stores `num_resets` (int), `ask` (bool) and
`pool` (a `ConnectionPool`) in it. -/
inductive KwVal where
  | nat (n : Nat)
  | bool (b : Bool)
  | pool (p : Pool)
  deriving DecidableEq, Repr

/-- Keyword arguments of `execute_command`. -/
abbrev Kw := List (String × KwVal)

/-- Python truthiness of a keyword value (`bool(x)`). -/
def truthy : KwVal → Bool
  | .nat n => n ≠ 0
  | .bool b => b
  | .pool _ => true

/-- The `kwargs.pop('pool', None)` step (only a `pool`-valued entry yields a pool). -/
def popPool (kw : Kw) : Option Pool × Kw :=
  let (v, kw') := apopD kw "pool"
  (match v with
   | some (.pool p) => some p
   | _ => none, kw')

/-- The `kwargs.pop('ask', False)` step followed by the `if ask:` truthiness test. -/
def popAsk (kw : Kw) : Bool × Kw :=
  let (v, kw') := apopD kw "ask"
  ((v.map truthy).getD false, kw')

/-- The `kwargs.pop('num_resets', 0)` step (only the machinery ever sets this key,
always to an int). -/
def popNumResets (kw : Kw) : Nat × Kw :=
  let (v, kw') := apopD kw "num_resets"
  (match v with
   | some (.nat n) => n
   | _ => 0, kw')

/-- A value of the `CLUSTER SLOTS` reply: the server sends node hosts as
bytes or text and ports as ints; `_stringconv` decodes only bytes. -/
inductive PyVal where
  | str (s : String)
  | bytes (s : String)
  | int (n : Nat)
  deriving DecidableEq, Repr

/-- Embedding of `Cluster._stringconv` (utf-8 decode of bytes, id otherwise). -/
def stringconv : PyVal → PyVal
  | .bytes s => .str s
  | v => v

/-- Python `'{}'.format(v)` for the values `_stringconv` can produce. -/
def fmtPy : PyVal → String
  | .str s => s
  | .bytes s => "b" ++ "'" ++ s ++ "'"
  | .int n => toString n

/-- One element of a well-formed `CLUSTER SLOTS` reply:
`(start_slot, end_slot, [master_host, master_port, ...], ...)`.
`reset_slots` reads only `elem[0]`, `elem[1]`, `elem[2][0]`, `elem[2][1]`;
replica tuples are ignored by the code and omitted here. -/
structure SlotEntry where
  start : Nat
  stop : Nat
  host : PyVal
  port : PyVal
  deriving DecidableEq, Repr

/-- The canonical `'{}:{}'.format(ip, port)` address of an entry's master. -/
def entryAddr (e : SlotEntry) : String :=
  fmtPy (stringconv e.host) ++ ":" ++ fmtPy (stringconv e.port)

/-- A `CLUSTER SLOTS` reply: either a (list/tuple) sequence of entries, or
anything else (which `reset_slots` rejects with `RedisError`). -/
inductive Resp where
  | list (es : List SlotEntry)
  | bad
  deriving DecidableEq, Repr

/-- The slot table `self.mapping` (slot → address). -/
abbrev SlotMap := List (Nat × String)

/-- The pool registry `self.cluster_pools` (address → pool). -/
abbrev PoolMap := List (String × Pool)

/-- The exception kinds a run can surface.  `fuelOut` is an artifact of
the bounded embedding of the recursion (never reached when the fuel is at
least `max_resets + 2`, see `execute_command`). -/
inductive PErr where
  | redisError (msg : String)
  | clusterError (msg : String) (extra : List String)
  | invalidResponse (msg : String)
  | responseError (msg : String)
  | connectionError (msg : String)
  | attributeError
  | valueError
  | fuelOut
  deriving DecidableEq, Repr

/-- An exception raised by the pool's `execute_command` primitive and
caught by the `except (ConnectionError, ResponseError)` handler. -/
inductive PyErr where
  | conn (msg : String)
  | resp (msg : String)
  deriving DecidableEq, Repr

/-- The message `str(e)` of a caught exception. -/
def pyErrMsg : PyErr → String
  | .conn m => m
  | .resp m => m

/-- One outcome of the pool `execute` primitive (decided by the `Env`). -/
inductive ExecResult where
  | ok (v : Nat)
  | connErr (msg : String)
  | respErr (msg : String)
  deriving DecidableEq, Repr

/-- Observable pool-level events of a run. -/
inductive Ev where
  /-- A `pool.execute_command(*args, **kwargs)` call on the pool at `addr`. -/
  | exec (addr : String) (args : List String) (kwargs : Kw)
  /-- A `pool.disconnect()` call on the pool at `addr`. -/
  | disconnect (addr : String)
  /-- A `ConnectionPool(host=ip, port=port, **kwargs)` construction inside `reset_slots`. -/
  | refreshPoolCreated (addr : String) (kwargs : CKw)
  /-- A `ConnectionPool(host, port, **self.pool_kwargs)` construction inside `get_pool`. -/
  | lazyPoolCreated (addr : String) (kwargs : CKw)
  deriving DecidableEq, Repr

/-- The environment: replies of the pool `execute` primitive by dispatch
index, `CLUSTER SLOTS` replies by refresh index, and the values drawn by
`random.randint` (taken mod the registry size) by draw index. -/
structure Env where
  execRes : Nat → ExecResult
  topo : Nat → Resp
  pick : Nat → Nat

/-- The cluster's configuration: `self.max_resets`, `self.pool_kwargs`
and the slot-hash collaborator `key_to_slot`. -/
structure Cluster where
  max_resets : Nat
  pool_kwargs : CKw
  keyToSlot : String → Nat

/-- The mutable state of a run: `self.mapping`, `self.cluster_pools`,
the oracle cursors, and the event trace. -/
structure RunSt where
  mapping : SlotMap
  pools : PoolMap
  nExec : Nat
  nTopo : Nat
  nPick : Nat
  trace : List Ev
  deriving DecidableEq, Repr

/-! ## `reset_slots` (src/redis/cluster.py lines 105-127)

```python
def reset_slots(self, **kwargs):
    pool = self.get_random_pool()
    resp = pool.execute_command('CLUSTER', 'SLOTS')
    if not isinstance(resp, (list, tuple)):
        raise RedisError('Unable to locate redis slots.')
    _pools = {}
    for elem in resp:
        _start, _end, master = elem[0], elem[1], elem[2]
        ip, port = self._stringconv(master[0]), self._stringconv(master[1])
        addr = '{}:{}'.format(ip, port)
        for i in range(int(_start), int(_end) + 1):
            self.mapping[i] = addr
        if addr not in _pools:
            p = (self.cluster_pools.pop(addr, None) or
                 ConnectionPool(host=ip, port=port, **kwargs))
            p.addr = addr
            _pools[addr] = p
    self.cluster_pools.clear()
    self.cluster_pools = _pools
```
-/

/-- The loop `for i in range(start, start + count): self.mapping[i] = addr`. -/
def assignRange (addr : String) : Nat → Nat → SlotMap → SlotMap
  | _, 0, m => m
  | s, count + 1, m => assignRange addr (s + 1) count (aset m s addr)

/-- The loop state of `reset_slots`: `self.mapping` (updated in place),
the shrinking `self.cluster_pools` being popped from, the new `_pools`,
and the `(addr, kwargs)` of every freshly constructed pool. -/
structure RSAcc where
  mapping : SlotMap
  old : PoolMap
  pools : PoolMap
  created : List (String × CKw)
  deriving DecidableEq, Repr

/-- One iteration of the `for elem in resp:` loop of `reset_slots`. -/
def resetEntry (kw : CKw) (acc : RSAcc) (e : SlotEntry) : RSAcc :=
  let ip := stringconv e.host
  let prt := stringconv e.port
  let addr := fmtPy ip ++ ":" ++ fmtPy prt
  let m' := assignRange addr e.start (e.stop + 1 - e.start) acc.mapping
  if (aget acc.pools addr).isSome then { acc with mapping := m' }
  else
    match apopD acc.old addr with
    | (some q, old') =>
      { mapping := m'
        old := old'
        pools := aset acc.pools addr { q with addr := some addr }
        created := acc.created }
    | (none, old') =>
      { mapping := m'
        old := old'
        pools := aset acc.pools addr
          { url := none, host := fmtPy ip, port := fmtPy prt, kwargs := kw, addr := some addr }
        created := acc.created ++ [(addr, kw)] }

/-- The whole `for elem in resp:` loop. -/
def resetFold (kw : CKw) (es : List SlotEntry) (acc : RSAcc) : RSAcc :=
  es.foldl (resetEntry kw) acc

/-- The part of `reset_slots` after the `CLUSTER SLOTS` reply is in hand: validation,
the loop, and the final `self.cluster_pools = _pools` swap. -/
def reset_slots_core (kw : CKw) (m : SlotMap) (pools : PoolMap) (r : Resp) :
    Except PErr (SlotMap × PoolMap × List (String × CKw)) :=
  match r with
  | .bad => .error (.redisError "Unable to locate redis slots.")
  | .list es =>
    let acc := resetFold kw es ⟨m, pools, [], []⟩
    .ok (acc.mapping, acc.pools, acc.created)

/-- Embedding of `Cluster.get_random_pool` (`random.randint(0, len - 1)`
is the environment's draw taken mod the registry size; an empty registry
is Python's `ValueError` from `randint(0, -1)`). -/
def get_random_pool (env : Env) (st : RunSt) : Except PErr Pool × RunSt :=
  let ps := st.pools.map (·.2)
  if ps.length = 0 then (.error .valueError, st)
  else (.ok (ps.getD (env.pick st.nPick % ps.length) default),
        { st with nPick := st.nPick + 1 })

/-- Embedding of `Cluster.reset_slots`, including the topology query. -/
def reset_slots (env : Env) (kw : CKw) (st : RunSt) : Except PErr Unit × RunSt :=
  match get_random_pool env st with
  | (.error e, st1) => (.error e, st1)
  | (.ok p, st1) =>
    let r := env.topo st1.nTopo
    let st2 :=
      { st1 with
        nTopo := st1.nTopo + 1
        trace := st1.trace ++ [.exec (p.addr.getD "") ["CLUSTER", "SLOTS"] []] }
    match reset_slots_core kw st2.mapping st2.pools r with
    | .error e => (.error e, st2)
    | .ok (m, ps, cr) =>
      (.ok (),
       { st2 with
         mapping := m
         pools := ps
         trace := st2.trace ++ cr.map (fun ak => .refreshPoolCreated ak.1 ak.2) })

/-! ## `get_pool` (src/redis/cluster.py lines 129-146)

```python
def _key_to_addr(self, key):
    slot = key_to_slot(key)
    return self.mapping.get(slot)

def get_pool(self, key=None):
    if not key:
        pool = self.get_random_pool()
        return pool
    addr = self._key_to_addr(key)
    if addr:
        pool = self.cluster_pools.get(addr)
        if not pool:
            host, port = addr.split(':')
            pool = ConnectionPool(host=host, port=int(port),
                                  **self.pool_kwargs)
            self.cluster_pools[addr] = pool
        return pool
    raise ClusterError("No slot found for key...", key)
```
-/

/-- Embedding of `Cluster.get_pool` (`key = none` and `key = some ""` are
both Python-falsy and take the random branch). -/
def get_pool (cl : Cluster) (env : Env) (st : RunSt) (key : Option String) :
    Except PErr Pool × RunSt :=
  match key with
  | none => get_random_pool env st
  | some k =>
    if k = "" then get_random_pool env st
    else
      match aget st.mapping (cl.keyToSlot k) with
      | none => (.error (.clusterError "No slot found for key..." [k]), st)
      | some addr =>
        if addr = "" then (.error (.clusterError "No slot found for key..." [k]), st)
        else
          match aget st.pools addr with
          | some p => (.ok p, st)
          | none =>
            match pySplitChar ':' addr with
            | [h, prt] =>
              match pyToNat? prt with
              | some pn =>
                let p : Pool :=
                  { url := none, host := h, port := toString pn
                    kwargs := cl.pool_kwargs, addr := none }
                (.ok p,
                 { st with
                   pools := aset st.pools addr p
                   trace := st.trace ++ [.lazyPoolCreated addr cl.pool_kwargs] })
              | none => (.error .valueError, st)
            | _ => (.error .valueError, st)

/-! ## `execute_command` (src/redis/cluster.py lines 148-203)

```python
def redirect_info(self, msg):
    parts = msg.split()
    if len(parts) < 3:
        return None, None
    return parts[1], parts[2]

def execute_command(self, *args, **kwargs):
    pool = kwargs.pop('pool', None)
    ask = kwargs.pop('ask', False)
    if not pool:
        if len(args) < 2:
            pool = self.get_pool()
        else:
            key = str(args[1])
            pool = self.get_pool(key=key)
    try:
        if ask:
            pool.execute_command('ASKING')
            ask = False
        response = pool.execute_command(*args, **kwargs)
        return response
    except (ConnectionError, ResponseError) as e:
        msg = str(e)
        ask = msg.startswith('ASK ')
        moved = msg.startswith('MOVED ')
        num_resets = kwargs.pop('num_resets', 0)
        if num_resets > self.max_resets:
            raise ClusterError('Too many resets happened.')
        current_addr = pool.addr
        pool.disconnect()
        self.cluster_pools.pop(current_addr, None)
        self.reset_slots()
        num_resets += 1
        kwargs.update({'num_resets': num_resets})
        if ask or moved:
            _, addr = self.redirect_info(msg)
            if not addr or addr not in self.cluster_pools:
                raise InvalidResponse('Invalid redirect node %s.' % addr)
            pool = self.cluster_pools[addr]
            kwargs.update({'ask': ask, 'pool': pool})
        elif isinstance(e, ResponseError):
            raise
        return self.execute_command(*args, **kwargs)
```
-/

/-- Embedding of `Cluster.redirect_info`. -/
def redirect_info (msg : String) : Option String × Option String :=
  let parts := pySplitWs msg
  if parts.length < 3 then (none, none)
  else (parts.get? 1, parts.get? 2)

/-- The `if not pool:` dispatch-pool resolution (`str` of a string is itself). -/
def dispatch_pool (cl : Cluster) (env : Env) (st : RunSt) (args : List String) :
    Except PErr Pool × RunSt :=
  if args.length < 2 then get_pool cl env st none
  else get_pool cl env st (some (args.getD 1 ""))

/-- The `if not pool:` block of `execute_command`: keep an explicitly
passed pool, otherwise route via `dispatch_pool`. -/
def resolve_pool (cl : Cluster) (env : Env) (st : RunSt) (args : List String)
    (pk : Option Pool) : Except PErr Pool × RunSt :=
  match pk with
  | some p => (.ok p, st)
  | none => dispatch_pool cl env st args

/-- The `response = pool.execute_command(*args, **kwargs)` send. -/
def sendCmd (env : Env) (st : RunSt) (pool : Pool) (args : List String) (kw : Kw) :
    Except PyErr Nat × RunSt :=
  let r := env.execRes st.nExec
  let st1 :=
    { st with
      nExec := st.nExec + 1
      trace := st.trace ++ [.exec (pool.addr.getD "") args kw] }
  match r with
  | .ok v => (.ok v, st1)
  | .connErr m => (.error (.conn m), st1)
  | .respErr m => (.error (.resp m), st1)

/-- The `try:` block: the optional bare `ASKING` call, then the command. -/
def tryStep (env : Env) (st : RunSt) (pool : Pool) (ask : Bool) (args : List String)
    (kw : Kw) : Except PyErr Nat × RunSt :=
  if ask then
    let r := env.execRes st.nExec
    let st1 :=
      { st with
        nExec := st.nExec + 1
        trace := st.trace ++ [.exec (pool.addr.getD "") ["ASKING"] []] }
    match r with
    | .ok _ => sendCmd env st1 pool args kw
    | .connErr m => (.error (.conn m), st1)
    | .respErr m => (.error (.resp m), st1)
  else sendCmd env st pool args kw

/-- Python `'%s' % addr` for the address named in a redirect (`None` if absent). -/
def redirNodeStr : Option String → String
  | none => "None"
  | some a => a

/-- The `except (ConnectionError, ResponseError)` handler, up to (but not
including) the recursive `self.execute_command(*args, **kwargs)` call: it
either raises a `PErr` or yields the kwargs for the recursive call. -/
def recover (cl : Cluster) (env : Env) (st : RunSt) (kw2 : Kw) (pool : Pool)
    (e : PyErr) : Except PErr Kw × RunSt :=
  let msg := pyErrMsg e
  let ask := startsWithS "ASK " msg
  let moved := startsWithS "MOVED " msg
  let (nr, kw3) := popNumResets kw2
  if cl.max_resets < nr then (.error (.clusterError "Too many resets happened." []), st)
  else
    match pool.addr with
    | none => (.error .attributeError, st)
    | some ca =>
      let st1 :=
        { st with
          pools := (apopD st.pools ca).2
          trace := st.trace ++ [.disconnect ca] }
      match reset_slots env [] st1 with
      | (.error e2, st2) => (.error e2, st2)
      | (.ok _, st2) =>
        let kw4 := aset kw3 "num_resets" (.nat (nr + 1))
        if ask || moved then
          let ra := (redirect_info msg).2
          let bad : Except PErr Kw :=
            .error (.invalidResponse ("Invalid redirect node " ++ redirNodeStr ra ++ "."))
          match ra with
          | none => (bad, st2)
          | some a =>
            if a = "" then (bad, st2)
            else
              match aget st2.pools a with
              | none => (bad, st2)
              | some p2 => (.ok (aset (aset kw4 "ask" (.bool ask)) "pool" (.pool p2)), st2)
        else
          match e with
          | .resp m => (.error (.responseError m), st2)
          | .conn _ => (.ok kw4, st2)

/-- Embedding of `Cluster.execute_command`, with explicit fuel bounding the
recursion depth (the Python recursion's depth is itself bounded by the
`num_resets > self.max_resets` check; see `execute_command`). -/
def exec_cmd (cl : Cluster) (env : Env) :
    Nat → RunSt → List String → Kw → Except PErr Nat × RunSt
  | 0, st, _, _ => (.error .fuelOut, st)
  | fuel + 1, st, args, kw =>
    let pk := popPool kw
    let ak := popAsk pk.2
    match resolve_pool cl env st args pk.1 with
    | (.error e, st1) => (.error e, st1)
    | (.ok pool, st1) =>
      match tryStep env st1 pool ak.1 args ak.2 with
      | (.ok v, st2) => (.ok v, st2)
      | (.error e, st2) =>
        match recover cl env st2 ak.2 pool e with
        | (.error err, st3) => (.error err, st3)
        | (.ok kwN, st3) => exec_cmd cl env fuel st3 args kwN

/-- Embedding of `Cluster.execute_command`.  The fuel `max_resets + 2` dominates the
recursion depth: each recursive call carries `num_resets` one larger than
the value the previous `except` block popped, and the block raises as soon
as the popped value exceeds `max_resets`, so starting from a popped value
of at least `0` there are at most `max_resets + 2` dispatch iterations. -/
def execute_command (cl : Cluster) (env : Env) (st : RunSt) (args : List String)
    (kw : Kw) : Except PErr Nat × RunSt :=
  exec_cmd cl env (cl.max_resets + 2) st args kw

/-! ## `__init__` / `init_pools` (src/redis/cluster.py lines 60-93)

```python
def __init__(self, hosts, **kwargs):
    self.mapping = {}
    self.cluster_pools = {}
    self.max_resets = kwargs.pop('max_resets', 2)
    self.init_pools(hosts, **kwargs)
    self.pool_kwargs = kwargs

def init_pools(self, hosts, **kwargs):
    # Ensure consistency of db value
    kwargs.update({'db': 0})
    for host in hosts:
        if isinstance(host, str):
            addr = self.parse_addr(host)
            pool = ConnectionPool.from_url(host, **kwargs)
        else:
            addr = '{}:{}'.format(host['host'], host['port'])
            pool = ConnectionPool(host=host['host'], port=host['port'],
                                  **kwargs)
        self.cluster_pools[addr] = pool
    self.reset_slots(**kwargs)
```

Note that `self.init_pools(hosts, **kwargs)` passes a *copy* of the
kwargs dict, so the `kwargs.update({'db': 0})` inside `init_pools` is not
visible to the `self.pool_kwargs = kwargs` assignment in `__init__`. -/

/-- A seed host: a connection-URL string or a `{'host': ..., 'port': ...}`
record (`init_pools` reads only `host` and `port` from the record). -/
inductive HostSpec where
  | url (s : String)
  | record (host : String) (port : Nat)
  deriving DecidableEq, Repr

/-- The `self.max_resets = kwargs.pop('max_resets', 2)` step — the popped value. -/
def ctor_max_resets (kw : CKw) : Nat := ((apopD kw "max_resets").1).getD 2

/-- The `self.pool_kwargs = kwargs` assignment — the dict after the `max_resets` pop. -/
def ctor_pool_kwargs (kw : CKw) : CKw := (apopD kw "max_resets").2

/-- One iteration of the `for host in hosts:` seed loop of `init_pools`
(`kw0` is the kwargs dict after `kwargs.update({'db': 0})`). -/
def seed_pool (kw0 : CKw) (h : HostSpec) : String × Pool :=
  match h with
  | .url s => (parse_addr s, { url := some s, host := "", port := "", kwargs := kw0, addr := none })
  | .record hst prt =>
    (hst ++ ":" ++ toString prt,
     { url := none, host := hst, port := toString prt, kwargs := kw0, addr := none })

/-- The seed registry built by `init_pools` before its `reset_slots` call,
from the kwargs `init_pools` received (it applies the `db := 0` update
itself). -/
def init_pools_seed (hosts : List HostSpec) (kw : CKw) : PoolMap :=
  (hosts.map (seed_pool (aset kw "db" 0))).foldl (fun m ap => aset m ap.1 ap.2) []

/-! ## Spec-side definition for the refresh refinement claim

The spec asserts that after `reset_slots` the slot table equals "the
mapping derived from th[e] reply alone".  `replyOwner` is that
specification mapping: the owner a reply assigns to a slot, later entries
overriding earlier ones (mirroring the overwrite order of the loop), and
`none` for a slot no entry covers. -/

/-- The owner the topology reply alone assigns to slot `s` (if any). -/
def replyOwner (es : List SlotEntry) (s : Nat) : Option String :=
  match es with
  | [] => none
  | e :: rest =>
    replyOwner rest s <|> (if e.start ≤ s ∧ s ≤ e.stop then some (entryAddr e) else none)

/-! ## Concrete test fixtures

A two-node cluster `X:1` / `Y:2`.  `topoXY` is the `CLUSTER SLOTS` reply
assigning slot 0 to `X:1` and slot 1 to `Y:2`. -/

/-- The pool for node `X:1` (with its `.addr` attribute set). -/
def pX : Pool := { url := none, host := "X", port := "1", kwargs := [], addr := some "X:1" }

/-- The pool for node `Y:2` (with its `.addr` attribute set). -/
def pY : Pool := { url := none, host := "Y", port := "2", kwargs := [], addr := some "Y:2" }

/-- A two-entry `CLUSTER SLOTS` reply: slot 0 on `X:1`, slot 1 on `Y:2`. -/
def topoXY : Resp := .list [⟨0, 0, .str "X", .str "1"⟩, ⟨1, 1, .str "Y", .str "2"⟩]

/-- A cluster with `max_resets := M`, no pool kwargs, and a slot hash that
sends every key to slot 0 (the hash collaborator is out of scope). -/
def clM (M : Nat) : Cluster := { max_resets := M, pool_kwargs := [], keyToSlot := fun _ => 0 }

/-- A start state: slot 0 owned by `X:1`; pools for `X:1` and `Y:2`. -/
def stXY : RunSt :=
  { mapping := [(0, "X:1")], pools := [("X:1", pX), ("Y:2", pY)],
    nExec := 0, nTopo := 0, nPick := 0, trace := [] }

/-- An environment whose pool primitive always raises `MOVED 1 X:1` and
whose topology queries always return `topoXY` (which contains `X:1`). -/
def envMoved : Env :=
  { execRes := fun _ => .respErr "MOVED 1 X:1", topo := fun _ => topoXY, pick := fun _ => 0 }

/-- A start state for the ASK scenario: slot 0 owned by `Y:2`. -/
def stASK : RunSt :=
  { mapping := [(0, "Y:2")], pools := [("Y:2", pY), ("X:1", pX)],
    nExec := 0, nTopo := 0, nPick := 0, trace := [] }

/-- An environment raising `ASK 1 X:1` on the first pool call and
succeeding with reply `v` afterwards. -/
def envASK (v : Nat) : Env :=
  { execRes := fun n => if n = 0 then .respErr "ASK 1 X:1" else .ok v,
    topo := fun _ => topoXY, pick := fun _ => 0 }

/-- An environment whose pool primitive always raises the non-redirect
response error `ERR bad args`. -/
def envERR : Env :=
  { execRes := fun _ => .respErr "ERR bad args", topo := fun _ => topoXY, pick := fun _ => 0 }

/-- An environment always raising `MOVED 1 Z:9`, a redirect to an address
that no topology reply corroborates. -/
def envBadRedir : Env :=
  { execRes := fun _ => .respErr "MOVED 1 Z:9", topo := fun _ => topoXY, pick := fun _ => 0 }

/-- A state whose slot table is empty (so no slot has an owner). -/
def stEmptyMap : RunSt :=
  { mapping := [], pools := [("X:1", pX)], nExec := 0, nTopo := 0, nPick := 0, trace := [] }

/-- A cluster whose stored pool-construction parameters are non-empty. -/
def clT : Cluster :=
  { max_resets := 0, pool_kwargs := [("socket_timeout", 5)], keyToSlot := fun _ => 0 }

/-- The event kinds a single `execute_command` call can append to the
trace: pool-primitive invocations with the original arguments, bare
`ASKING` calls, `CLUSTER SLOTS` queries, disconnects, lazily created
pools, and refresh-created pools built with *empty* kwargs. -/
def evOK (args : List String) : Ev → Prop
  | .exec _ a _ => a = args ∨ a = ["ASKING"] ∨ a = ["CLUSTER", "SLOTS"]
  | .refreshPoolCreated _ k => k = []
  | .disconnect _ => True
  | .lazyPoolCreated _ _ => True

/-! ## Theorems -/

section DictLemmas

variable {κ : Type} {α : Type} [DecidableEq κ]

@[simp] theorem aget_nil (k : κ) : aget ([] : List (κ × α)) k = none := rfl

theorem aget_aset (m : List (κ × α)) (k k' : κ) (v : α) :
    aget (aset m k v) k' = if k = k' then some v else aget m k' := by
  induction m with
  | nil => by_cases h : k = k' <;> simp [aset, aget, h]
  | cons p rest ih =>
    obtain ⟨k₀, v₀⟩ := p
    by_cases h0 : k₀ = k
    · subst h0
      by_cases h1 : k₀ = k' <;> simp [aset, aget, h1]
    · by_cases h1 : k₀ = k'
      · have h2 : ¬ k = k' := fun h => h0 (h1.trans h.symm)
        have h3 : ¬ k' = k := fun h => h2 h.symm
        simp [aset, aget, h0, h1, h2, h3]
      · simp [aset, aget, h0, h1, ih]

theorem aget_apopD_ne (m : List (κ × α)) (k k' : κ) (h : k ≠ k') :
    aget (apopD m k).2 k' = aget m k' := by
  induction m with
  | nil => rfl
  | cons p rest ih =>
    obtain ⟨k₀, v₀⟩ := p
    by_cases h0 : k₀ = k
    · subst h0; simp [apopD, aget, h]
    · simp [apopD, aget, h0, ih]

end DictLemmas

/-! ## Claim C4: `parse_addr` on URLs with both a db path and a query -/

theorem firstIdx_append_cons (c : Char) (a r : List Char) (ha : c ∉ a) :
    firstIdx c (a ++ c :: r) = some a.length := by
  induction a with
  | nil => simp [firstIdx]
  | cons x a' ih =>
    have hx : ¬ x = c := fun h => ha (by simp [h])
    have ha' : c ∉ a' := fun h => ha (by simp [h])
    simp [firstIdx, hx, ih ha']

theorem lastIdx_eq_none (c : Char) (q : List Char) (hq : c ∉ q) : lastIdx c q = none := by
  induction q with
  | nil => rfl
  | cons x q' ih =>
    have hx : ¬ x = c := fun h => hq (by simp [h])
    have hq' : c ∉ q' := fun h => hq (by simp [h])
    simp [lastIdx, ih hq', hx]

theorem lastIdx_append_cons (c : Char) (xs q : List Char) (hq : c ∉ q) :
    lastIdx c (xs ++ c :: q) = some xs.length := by
  induction xs with
  | nil => simp [lastIdx, lastIdx_eq_none c q hq]
  | cons x xs' ih => simp [lastIdx, ih]

theorem containsC_of_mem (c : Char) (cs : List Char) (h : c ∈ cs) :
    containsC c cs = true := by
  simp [containsC, List.any_eq_true]
  exact h

/-- C4, counterexample: on `redis://u:p@host:1234/0?x=1` (an `@`, a `/0`
db segment and a `?x=1` query), `parse_addr` returns `host:1234/0` — it
strips only the query, keeping the `/0` segment — and not `host:1234`. -/
theorem parse_addr_both_counterexample :
    parse_addr "redis://u:p@host:1234/0?x=1" = "host:1234/0" ∧
      parse_addr "redis://u:p@host:1234/0?x=1" ≠ "host:1234" ∧
      '/' ∈ (parse_addr "redis://u:p@host:1234/0?x=1").data := by
  refine ⟨by decide, by decide, by decide⟩

/-- C4, amended: for every URL `a@h/d?q` whose userinfo part `a` contains
no `@` and whose query `q` contains no `?`, `parse_addr` returns the
substring between the `@` and the final `?`, i.e. `h/d`: the `/db`
segment is retained (and the result contains `/`) whenever both a db path
and a query string are present. -/
theorem parse_addr_db_and_query (a h d q : List Char) (ha : '@' ∉ a) (hq : '?' ∉ q) :
    parse_addr (String.mk (a ++ '@' :: (h ++ '/' :: (d ++ '?' :: q)))) =
      String.mk (h ++ '/' :: d) := by
  have hfi : firstIdx '@' (a ++ '@' :: (h ++ '/' :: (d ++ '?' :: q))) = some a.length :=
    firstIdx_append_cons '@' a _ ha
  have hsplit : a ++ '@' :: (h ++ '/' :: (d ++ '?' :: q)) =
      ((a ++ '@' :: (h ++ '/' :: d)) ++ '?' :: q) := by
    simp [List.append_assoc]
  have hla : lastIdx '?' (a ++ '@' :: (h ++ '/' :: (d ++ '?' :: q))) =
      some (a ++ '@' :: (h ++ '/' :: d)).length := by
    rw [hsplit]; exact lastIdx_append_cons '?' _ q hq
  have hmem : '?' ∈ a ++ '@' :: (h ++ '/' :: (d ++ '?' :: q)) := by simp
  have hlen : (a ++ '@' :: (h ++ '/' :: d)).length = a.length + 1 + (h ++ '/' :: d).length := by
    simp [List.length_append, List.length_cons]; omega
  unfold parse_addr
  simp only [findI, hfi, rfindI, hla, containsC_of_mem '?' _ hmem]
  have hne : ¬ ((a.length : Int) = -1) := by omega
  simp only [hne, if_false, if_true, Bool.true_eq, ite_true]
  congr 1
  have htoNat : ((a.length : Int) + 1).toNat = a.length + 1 := by omega
  unfold pyslice
  have hnonneg : ¬ (((a ++ '@' :: (h ++ '/' :: d)).length : Int) < 0) := by omega
  simp only [hnonneg, if_false, Int.toNat_natCast, htoNat]
  rw [hsplit]
  have hle : (a ++ '@' :: (h ++ '/' :: d)).length ≤
      ((a ++ '@' :: (h ++ '/' :: d)) ++ '?' :: q).length := by
    simp [List.length_append]
  rw [min_eq_left hle, List.take_left]
  have hcons : a ++ '@' :: (h ++ '/' :: d) = (a ++ ['@']) ++ (h ++ '/' :: d) := by
    simp [List.append_assoc]
  rw [hcons]
  have hlen2 : a.length + 1 = (a ++ ['@']).length := by simp
  rw [hlen2, List.drop_left]

/-- C4, witness for the amended claim at `redis://u:p@host:1234/0?x=1`. -/
theorem parse_addr_db_and_query_witness :
    parse_addr "redis://u:p@host:1234/0?x=1" = "host:1234/0" := by
  have h := parse_addr_db_and_query "redis://u:p".data "host:1234".data "0".data "x=1".data
    (by decide) (by decide)
  have e1 : String.mk ("redis://u:p".data ++ '@' :: ("host:1234".data ++ '/' ::
      ("0".data ++ '?' :: "x=1".data))) = "redis://u:p@host:1234/0?x=1" := by decide
  have e2 : String.mk ("host:1234".data ++ '/' :: "0".data) = "host:1234/0" := by decide
  rw [e1, e2] at h
  exact h

/-! ## Claim C1: what `reset_slots` actually does to the slot table -/

theorem aget_assignRange (addr : String) (n : Nat) :
    ∀ (s t : Nat) (m : SlotMap),
      aget (assignRange addr s n m) t =
        if s ≤ t ∧ t < s + n then some addr else aget m t := by
  induction n with
  | zero =>
    intro s t m
    rw [assignRange, if_neg (by omega)]
  | succ n ih =>
    intro s t m
    rw [assignRange, ih, aget_aset]
    split_ifs <;> first | rfl | omega

theorem resetEntry_mapping (kw : CKw) (acc : RSAcc) (e : SlotEntry) :
    (resetEntry kw acc e).mapping =
      assignRange (entryAddr e) e.start (e.stop + 1 - e.start) acc.mapping := by
  unfold resetEntry
  dsimp only
  split
  · rfl
  · split <;> rfl

theorem resetEntry_pools_isSome (kw : CKw) (acc : RSAcc) (e : SlotEntry) (a : String) :
    (aget (resetEntry kw acc e).pools a).isSome ↔
      (a = entryAddr e ∨ (aget acc.pools a).isSome) := by
  unfold resetEntry
  dsimp only
  split
  · next hpresent =>
    constructor
    · exact fun h => Or.inr h
    · rintro (rfl | h)
      · exact hpresent
      · exact h
  · next habsent =>
    split
    · next q old' hpop =>
      rw [aget_aset]
      by_cases hea : entryAddr e = a
      · have hea' : fmtPy (stringconv e.host) ++ ":" ++ fmtPy (stringconv e.port) = a := hea
        simp [hea', hea]
      · have hea' : ¬ (fmtPy (stringconv e.host) ++ ":" ++ fmtPy (stringconv e.port) = a) := hea
        have hne : ¬ a = entryAddr e := fun h => hea h.symm
        simp [hea', hne]
    · next old' hpop =>
      rw [aget_aset]
      by_cases hea : entryAddr e = a
      · have hea' : fmtPy (stringconv e.host) ++ ":" ++ fmtPy (stringconv e.port) = a := hea
        simp [hea', hea]
      · have hea' : ¬ (fmtPy (stringconv e.host) ++ ":" ++ fmtPy (stringconv e.port) = a) := hea
        have hne : ¬ a = entryAddr e := fun h => hea h.symm
        simp [hea', hne]

theorem resetEntry_created (kw : CKw) (acc : RSAcc) (e : SlotEntry) :
    (resetEntry kw acc e).created = acc.created ∨
      (resetEntry kw acc e).created = acc.created ++ [(entryAddr e, kw)] := by
  unfold resetEntry
  dsimp only
  split
  · exact Or.inl rfl
  · split
    · exact Or.inl rfl
    · exact Or.inr rfl

theorem resetFold_mapping (kw : CKw) (es : List SlotEntry) :
    ∀ (acc : RSAcc) (s : Nat),
      aget (resetFold kw es acc).mapping s = (replyOwner es s <|> aget acc.mapping s) := by
  induction es with
  | nil => intro acc s; simp [resetFold, replyOwner, List.foldl]
  | cons e rest ih =>
    intro acc s
    have hstep : resetFold kw (e :: rest) acc = resetFold kw rest (resetEntry kw acc e) := by
      simp [resetFold, List.foldl]
    rw [hstep, ih, resetEntry_mapping, aget_assignRange]
    have hcond : (e.start ≤ s ∧ s < e.start + (e.stop + 1 - e.start)) ↔
        (e.start ≤ s ∧ s ≤ e.stop) := by omega
    rw [replyOwner]
    cases hro : replyOwner rest s with
    | some v => simp
    | none =>
      simp only [Option.none_orElse]
      by_cases hc : e.start ≤ s ∧ s ≤ e.stop
      · rw [if_pos (hcond.mpr hc), if_pos hc]
        simp
      · rw [if_neg (fun h => hc (hcond.mp h)), if_neg hc]
        simp

theorem resetFold_pools_isSome (kw : CKw) (es : List SlotEntry) :
    ∀ (acc : RSAcc) (a : String),
      (aget (resetFold kw es acc).pools a).isSome ↔
        (a ∈ es.map entryAddr ∨ (aget acc.pools a).isSome) := by
  induction es with
  | nil => intro acc a; simp [resetFold, List.foldl]
  | cons e rest ih =>
    intro acc a
    have hstep : resetFold kw (e :: rest) acc = resetFold kw rest (resetEntry kw acc e) := by
      simp [resetFold, List.foldl]
    rw [hstep, ih, resetEntry_pools_isSome]
    simp only [List.map_cons, List.mem_cons]
    tauto

theorem resetFold_created_mem (kw : CKw) (es : List SlotEntry) :
    ∀ (acc : RSAcc) (x : String × CKw),
      x ∈ (resetFold kw es acc).created → x ∈ acc.created ∨ x.2 = kw := by
  induction es with
  | nil => intro acc x hx; exact Or.inl (by simpa [resetFold, List.foldl] using hx)
  | cons e rest ih =>
    intro acc x hx
    have hstep : resetFold kw (e :: rest) acc = resetFold kw rest (resetEntry kw acc e) := by
      simp [resetFold, List.foldl]
    rw [hstep] at hx
    rcases ih _ _ hx with h | h
    · rcases resetEntry_created kw acc e with hc | hc
      · exact Or.inl (hc ▸ h)
      · rw [hc, List.mem_append] at h
        rcases h with h | h
        · exact Or.inl h
        · simp at h
          right
          rw [h]
    · exact Or.inr h

/-- C1, counterexample: `reset_slots` does *not* replace the slot table
by the mapping derived from the reply alone.  Starting from a table where
slot 5 is owned by `A:1` and refreshing with a reply that covers only
slot 0 (owner `B:2`), the resulting table still maps slot 5 to `A:1` —
an owner carried over from the previous topology — although the reply
alone assigns slot 5 no owner. -/
theorem reset_slots_stale_counterexample :
    reset_slots_core [] [(5, "A:1")] [] (.list [⟨0, 0, .str "B", .str "2"⟩]) =
      .ok ([(5, "A:1"), (0, "B:2")],
           [("B:2", { url := none, host := "B", port := "2", kwargs := [], addr := some "B:2" })],
           [("B:2", [])]) ∧
    aget [(5, "A:1"), (0, "B:2")] (5 : Nat) = some "A:1" ∧
    replyOwner [⟨0, 0, .str "B", .str "2"⟩] 5 = none := by
  refine ⟨rfl, by decide, by decide⟩

/-- C1, amended: `reset_slots` replaces the *pool registry* wholesale —
after a refresh with reply `es` the registry's addresses are exactly the
entry addresses of `es` — but it patches the *slot table* in place: a
slot covered by the reply gets the reply's owner, while a slot the reply
does not cover retains its previous owner, so the table can mix the old
and the new topology. -/
theorem reset_slots_swap_behaviour (kw : CKw) (m : SlotMap) (pools : PoolMap)
    (es : List SlotEntry) :
    reset_slots_core kw m pools (.list es) =
      .ok ((resetFold kw es ⟨m, pools, [], []⟩).mapping,
           (resetFold kw es ⟨m, pools, [], []⟩).pools,
           (resetFold kw es ⟨m, pools, [], []⟩).created) ∧
    (∀ s, aget (resetFold kw es ⟨m, pools, [], []⟩).mapping s =
      (replyOwner es s <|> aget m s)) ∧
    (∀ a, (aget (resetFold kw es ⟨m, pools, [], []⟩).pools a).isSome ↔
      a ∈ es.map entryAddr) := by
  refine ⟨rfl, fun s => resetFold_mapping kw es _ s, fun a => ?_⟩
  rw [resetFold_pools_isSome]
  simp

/-! ## Claim C9: `get_pool` on a key whose slot has no owner -/

/-- C9, counterexample: for the *empty* key — which is a key, and whose
computed slot has no owner in the (empty) slot table — `get_pool` does
not raise: Python's `if not key:` treats `''` like an absent key and
returns a random pool. -/
theorem get_pool_empty_key_counterexample :
    aget stEmptyMap.mapping ((clM 0).keyToSlot "") = none ∧
      (get_pool (clM 0) envMoved stEmptyMap (some "")).1 = .ok pX := by
  exact ⟨rfl, rfl⟩

/-- C9, amended: for every *non-empty* key whose computed slot has no
owner in the slot table (no entry, or a falsy empty-string entry),
`get_pool` raises `ClusterError("No slot found for key...", key)` — an
error naming the key — and leaves the state unchanged; the empty key is
treated as an absent key and routed to a random pool instead. -/
theorem get_pool_no_owner (cl : Cluster) (env : Env) (st : RunSt) (k : String)
    (hk : ¬ k = "")
    (h : aget st.mapping (cl.keyToSlot k) = none ∨
         aget st.mapping (cl.keyToSlot k) = some "") :
    get_pool cl env st (some k) =
      (.error (.clusterError "No slot found for key..." [k]), st) := by
  unfold get_pool
  rcases h with h | h <;> simp [hk, h]

/-- C9, witness: the amended claim at key `nokey` in `stEmptyMap`. -/
theorem get_pool_no_owner_witness :
    get_pool (clM 0) envMoved stEmptyMap (some "nokey") =
      (.error (.clusterError "No slot found for key..." ["nokey"]), stEmptyMap) :=
  get_pool_no_owner (clM 0) envMoved stEmptyMap "nokey" (by decide) (Or.inl rfl)

/-! ## Claim C10: the `db := 0` override on seed pools -/

theorem aget_foldl_aset_prop (P : Pool → Prop) :
    ∀ (l : List (String × Pool)) (m : PoolMap),
      (∀ a p, aget m a = some p → P p) → (∀ x ∈ l, P x.2) →
      ∀ a p, aget (l.foldl (fun m ap => aset m ap.1 ap.2) m) a = some p → P p := by
  intro l
  induction l with
  | nil => intro m hm _ a p hget; exact hm a p hget
  | cons x rest ih =>
    intro m hm hl a p hget
    simp only [List.foldl] at hget
    refine ih (aset m x.1 x.2) ?_ (fun y hy => hl y (by simp [hy])) a p hget
    intro a' p' h'
    rw [aget_aset] at h'
    by_cases hx : x.1 = a'
    · rw [if_pos hx] at h'
      cases h'
      exact hl x (by simp)
    · rw [if_neg hx] at h'
      exact hm a' p' h'

/-- C10: every seed pool built by `init_pools` from the configured host
list carries construction kwargs equal to the stored kwargs with `db`
overwritten to `0` (so its `db` option is forced to `0`, overriding any
supplied `db`), while the `pool_kwargs` stored by `__init__` for later
lazy pool creation keep the originally supplied `db` untouched (the
`kwargs.update({'db': 0})` happens on a copy). -/
theorem init_pools_db_override (hosts : List HostSpec) (kw : CKw) (a : String) (p : Pool)
    (h : aget (init_pools_seed hosts (ctor_pool_kwargs kw)) a = some p) :
    p.kwargs = aset (ctor_pool_kwargs kw) "db" 0 ∧
    aget p.kwargs "db" = some 0 ∧
    aget (ctor_pool_kwargs kw) "db" = aget kw "db" := by
  have hP : p.kwargs = aset (ctor_pool_kwargs kw) "db" 0 := by
    refine aget_foldl_aset_prop
      (fun q => q.kwargs = aset (ctor_pool_kwargs kw) "db" 0) _ [] ?_ ?_ a p h
    · intro a' p' h'
      simp [aget] at h'
    · intro x hx
      rw [List.mem_map] at hx
      obtain ⟨hs, _, rfl⟩ := hx
      cases hs <;> rfl
  refine ⟨hP, ?_, ?_⟩
  · rw [hP, aget_aset]
    simp
  · exact aget_apopD_ne kw "max_resets" "db" (by decide)

/-- C10, witness: seeds `[{'host': 'h', 'port': 7}]` with
`db=5, max_resets=3`: the seed pool is built with `db = 0` while the
stored pool kwargs keep `db = 5`. -/
theorem init_pools_db_override_witness :
    aget (init_pools_seed [HostSpec.record "h" 7]
        (ctor_pool_kwargs [("db", 5), ("max_resets", 3)])) "h:7" =
      some { url := none, host := "h", port := "7", kwargs := [("db", 0)], addr := none } ∧
    ([("db", 0)] : CKw) = aset (ctor_pool_kwargs [("db", 5), ("max_resets", 3)]) "db" 0 ∧
    aget ([("db", 0)] : CKw) "db" = some 0 ∧
    aget (ctor_pool_kwargs [("db", 5), ("max_resets", 3)]) "db" =
      aget [("db", 5), ("max_resets", 3)] "db" := by
  have h : aget (init_pools_seed [HostSpec.record "h" 7]
      (ctor_pool_kwargs [("db", 5), ("max_resets", 3)])) "h:7" =
      some { url := none, host := "h", port := "7", kwargs := [("db", 0)], addr := none } := rfl
  have c := init_pools_db_override [HostSpec.record "h" 7] [("db", 5), ("max_resets", 3)]
    "h:7" _ h
  exact ⟨h, c.1, c.2.1, c.2.2⟩

/-! ## Claim C8: ASK handling (redirect once, then succeed) -/

/-- C8: with a pool that raises `ASK 1 X:1` on the first attempt and
succeeds afterwards, and a topology refresh that corroborates `X:1`,
`execute_command` evicts the failing node, refreshes, issues a bare
`ASKING` call to `X:1`'s pool *before* re-sending the original command
there, and returns the eventual success value `v`.  The final trace shows
the full order: dispatch to `Y:2`, disconnect, `CLUSTER SLOTS` query,
`ASKING` at `X:1`, and the re-sent `GET k` at `X:1`. -/
theorem ask_redirect_ok (v : Nat) :
    execute_command (clM 2) (envASK v) stASK ["GET", "k"] [] =
      (.ok v,
       { mapping := [(0, "X:1"), (1, "Y:2")],
         pools := [("X:1", pX), ("Y:2", pY)],
         nExec := 3, nTopo := 1, nPick := 1,
         trace := [.exec "Y:2" ["GET", "k"] [],
                   .disconnect "Y:2",
                   .exec "X:1" ["CLUSTER", "SLOTS"] [],
                   .refreshPoolCreated "Y:2" [],
                   .exec "X:1" ["ASKING"] [],
                   .exec "X:1" ["GET", "k"] [("num_resets", .nat 1)]] }) := rfl

/-! ## Concrete counterexample runs for claims C2, C3, C5 and C6 -/

/-- C2, counterexample: with `max_resets = 0` and a pool that always
raises `MOVED 1 X:1` (the target `X:1` present in every refreshed
topology), `execute_command` raises the retry-ceiling `ClusterError`
after exactly `2` dispatch attempts (`nExec` counts the pool `execute`
invocations of the dispatch loop) — not after `max_resets + 1 = 1`. -/
theorem retry_ceiling_counterexample :
    (execute_command (clM 0) envMoved stXY ["GET", "k"] []).1 =
      .error (.clusterError "Too many resets happened." []) ∧
    (execute_command (clM 0) envMoved stXY ["GET", "k"] []).2.nExec = 2 ∧
    (2 : Nat) ≠ 0 + 1 := by
  exact ⟨rfl, rfl, by decide⟩

/-- C3, counterexample: a non-redirect response error (`ERR bad args`)
propagates on the first attempt (one dispatch, no retry), *but* a
topology refresh is triggered before it propagates: the final `nTopo` is
`1`, not the `0` it started with. -/
theorem nonredirect_refresh_counterexample :
    (execute_command (clM 2) envERR stXY ["GET", "k"] []).1 =
      .error (.responseError "ERR bad args") ∧
    (execute_command (clM 2) envERR stXY ["GET", "k"] []).2.nExec = 1 ∧
    (execute_command (clM 2) envERR stXY ["GET", "k"] []).2.nTopo = 1 ∧
    stXY.nTopo = 0 := by
  exact ⟨rfl, rfl, rfl, rfl⟩

/-- C5, counterexample: during the topology refresh triggered from the
redirect-recovery path, the pool for `X:1` is constructed with *empty*
kwargs (`execute_command` calls `self.reset_slots()` with no arguments),
not with the cluster's stored `pool_kwargs = [("socket_timeout", 5)]`. -/
theorem refresh_pool_params_counterexample :
    Ev.refreshPoolCreated "X:1" [] ∈
      (execute_command clT envMoved stXY ["GET", "k"] []).2.trace ∧
    ([] : CKw) ≠ clT.pool_kwargs := by
  exact ⟨by decide, by decide⟩

/-- C6, counterexample: on the retry following the first recovery, the
pool's execute primitive is invoked with the original positional
arguments *plus* the machinery's `num_resets := 1` keyword argument — an
additional argument introduced by the retry machinery. -/
theorem dispatch_extra_kwarg_counterexample :
    Ev.exec "X:1" ["GET", "k"] [("num_resets", .nat 1)] ∈
      (execute_command (clM 0) envMoved stXY ["GET", "k"] []).2.trace ∧
    ([("num_resets", KwVal.nat 1)] : Kw) ≠ [] := by
  exact ⟨by decide, by decide⟩

/-! ## State-preservation helper lemmas -/

theorem get_random_pool_state (env : Env) (st : RunSt) :
    (get_random_pool env st).2.mapping = st.mapping ∧
    (get_random_pool env st).2.pools = st.pools ∧
    (get_random_pool env st).2.nExec = st.nExec ∧
    (get_random_pool env st).2.nTopo = st.nTopo ∧
    (get_random_pool env st).2.trace = st.trace := by
  unfold get_random_pool
  dsimp only
  split <;> simp

theorem get_pool_counters (cl : Cluster) (env : Env) (st : RunSt) (key : Option String) :
    (get_pool cl env st key).2.nExec = st.nExec ∧
    (get_pool cl env st key).2.nTopo = st.nTopo := by
  have hr := get_random_pool_state env st
  cases key with
  | none => exact ⟨hr.2.2.1, hr.2.2.2.1⟩
  | some k =>
    unfold get_pool
    dsimp only
    split
    · exact ⟨hr.2.2.1, hr.2.2.2.1⟩
    · split
      · exact ⟨rfl, rfl⟩
      · split
        · exact ⟨rfl, rfl⟩
        · split
          · exact ⟨rfl, rfl⟩
          · split
            · split
              · exact ⟨rfl, rfl⟩
              · exact ⟨rfl, rfl⟩
            · exact ⟨rfl, rfl⟩

theorem dispatch_pool_counters (cl : Cluster) (env : Env) (st : RunSt) (args : List String) :
    (dispatch_pool cl env st args).2.nExec = st.nExec ∧
    (dispatch_pool cl env st args).2.nTopo = st.nTopo := by
  unfold dispatch_pool
  split
  · exact get_pool_counters cl env st none
  · exact get_pool_counters cl env st _

/-! ## Claim C3: non-redirect response errors -/

/-- C3, amended: a response error whose message starts with neither
`ASK ` nor `MOVED ` is propagated to the caller on the first attempt and
the command is never retried (`nExec` rises by exactly one), *but* before
it propagates the failing pool is evicted and one topology refresh is
performed (`nTopo` rises by exactly one).  The hypotheses pin the
environment: the routed pool carries its address attribute, its first
`execute` call raises the non-redirect response error, at least one other
pool survives the eviction (so the refresh can pick a node), and the
refresh's `CLUSTER SLOTS` query returns a well-formed reply. -/
theorem nonredirect_propagates (cl : Cluster) (env : Env) (st st1 : RunSt) (args : List String)
    (p : Pool) (pa m : String) (es : List SlotEntry)
    (hdp : dispatch_pool cl env st args = (.ok p, st1))
    (haddr : p.addr = some pa)
    (hexec : env.execRes st1.nExec = .respErr m)
    (hask : startsWithS "ASK " m = false)
    (hmoved : startsWithS "MOVED " m = false)
    (hne : (apopD st1.pools pa).2 ≠ [])
    (htopo : env.topo st1.nTopo = .list es) :
    (execute_command cl env st args []).1 = .error (.responseError m) ∧
    (execute_command cl env st args []).2.nExec = st.nExec + 1 ∧
    (execute_command cl env st args []).2.nTopo = st.nTopo + 1 := by
  have hfuel : cl.max_resets + 2 = (cl.max_resets + 1) + 1 := rfl
  have hc1 := (dispatch_pool_counters cl env st args).1
  have hc2 := (dispatch_pool_counters cl env st args).2
  rw [hdp] at hc1 hc2
  unfold execute_command
  rw [hfuel]
  rw [exec_cmd]
  simp [popPool, popAsk, apopD, hdp, resolve_pool, tryStep, sendCmd, hexec, recover, popNumResets,
    pyErrMsg, hask, hmoved, haddr, reset_slots, get_random_pool, reset_slots_core, htopo,
    hne, truthy]
  exact ⟨hc1, hc2⟩

/-- C3, witness: the amended claim at the `ERR bad args` environment. -/
theorem nonredirect_propagates_witness :
    (execute_command (clM 2) envERR stXY ["GET", "k"] []).1 =
      .error (.responseError "ERR bad args") ∧
    (execute_command (clM 2) envERR stXY ["GET", "k"] []).2.nExec = stXY.nExec + 1 ∧
    (execute_command (clM 2) envERR stXY ["GET", "k"] []).2.nTopo = stXY.nTopo + 1 :=
  nonredirect_propagates (clM 2) envERR stXY stXY ["GET", "k"] pX "X:1" "ERR bad args"
    [⟨0, 0, .str "X", .str "1"⟩, ⟨1, 1, .str "Y", .str "2"⟩]
    rfl rfl rfl (by decide) (by decide) (by decide) rfl

/-! ## Claim C7: uncorroborated redirect targets are rejected -/

theorem resetFold_pools_not_mem (kw : CKw) (es : List SlotEntry) (acc : RSAcc) (a : String)
    (hacc : acc.pools = []) (h : a ∉ es.map entryAddr) :
    aget (resetFold kw es acc).pools a = none := by
  rw [← Option.not_isSome_iff_eq_none, resetFold_pools_isSome]
  simp [hacc, h]

/-- C7: when a dispatch within the retry ceiling (`num_resets = k ≤
max_resets`) raises an ASK or MOVED redirect whose message either names
no address (`redirect_info` yields `none`) or names an address that the
immediately following topology refresh does not corroborate (it is not an
entry address of the fresh reply, hence absent from the rebuilt pool
registry), `execute_command` raises `InvalidResponse('Invalid redirect
node %s.' % addr)` instead of dispatching there: `nExec` rises by exactly
the one failing attempt. -/
theorem invalid_redirect_rejected (cl : Cluster) (env : Env) (st : RunSt) (args : List String)
    (p : Pool) (pa msg : String) (k : Nat) (es : List SlotEntry)
    (hk : k ≤ cl.max_resets)
    (haddr : p.addr = some pa)
    (henv : env.execRes st.nExec = .respErr msg)
    (hredir : startsWithS "ASK " msg = true ∨ startsWithS "MOVED " msg = true)
    (hne : (apopD st.pools pa).2 ≠ [])
    (htopo : env.topo st.nTopo = .list es)
    (hbad : ∀ a, (redirect_info msg).2 = some a → a ∉ es.map entryAddr) :
    (execute_command cl env st args
        [("num_resets", .nat k), ("ask", .bool false), ("pool", .pool p)]).1 =
      .error (.invalidResponse
        ("Invalid redirect node " ++ redirNodeStr (redirect_info msg).2 ++ ".")) ∧
    (execute_command cl env st args
        [("num_resets", .nat k), ("ask", .bool false), ("pool", .pool p)]).2.nExec =
      st.nExec + 1 := by
  have hfuel : cl.max_resets + 2 = (cl.max_resets + 1) + 1 := rfl
  have hnlt : ¬ (cl.max_resets < k) := Nat.not_lt.mpr hk
  unfold execute_command
  rw [hfuel]
  rw [exec_cmd]
  cases hri : (redirect_info msg).2 with
  | none =>
    rcases hredir with h | h <;>
      simp [popPool, popAsk, apopD, resolve_pool, tryStep, sendCmd, henv, recover, popNumResets,
        pyErrMsg, h, haddr, hnlt, reset_slots, get_random_pool, reset_slots_core, htopo,
        hne, truthy, hri, redirNodeStr]
  | some a =>
    by_cases ha : a = ""
    · rcases hredir with h | h <;>
        simp [popPool, popAsk, apopD, resolve_pool, tryStep, sendCmd, henv, recover, popNumResets,
          pyErrMsg, h, haddr, hnlt, reset_slots, get_random_pool, reset_slots_core, htopo,
          hne, truthy, hri, ha, redirNodeStr]
    · have hnone : ∀ (m0 : SlotMap) (p0 : PoolMap),
          aget (resetFold [] es (⟨m0, p0, [], []⟩ : RSAcc)).pools a = none :=
        fun m0 p0 => resetFold_pools_not_mem [] es _ a rfl (hbad a hri)
      rcases hredir with h | h <;>
        simp [popPool, popAsk, apopD, resolve_pool, tryStep, sendCmd, henv, recover, popNumResets,
          pyErrMsg, h, haddr, hnlt, reset_slots, get_random_pool, reset_slots_core, htopo,
          hne, truthy, hri, ha, hnone, redirNodeStr]

/-- C7, witness: a `MOVED 1 Z:9` redirect whose target `Z:9` is absent
from the refreshed topology is rejected with the invalid-redirect error. -/
theorem invalid_redirect_rejected_witness :
    (execute_command (clM 2) envBadRedir stXY ["GET", "k"]
        [("num_resets", .nat 0), ("ask", .bool false), ("pool", .pool pX)]).1 =
      .error (.invalidResponse
        ("Invalid redirect node " ++ redirNodeStr (redirect_info "MOVED 1 Z:9").2 ++ ".")) ∧
    (execute_command (clM 2) envBadRedir stXY ["GET", "k"]
        [("num_resets", .nat 0), ("ask", .bool false), ("pool", .pool pX)]).2.nExec =
      stXY.nExec + 1 :=
  invalid_redirect_rejected (clM 2) envBadRedir stXY ["GET", "k"] pX "X:1" "MOVED 1 Z:9" 0
    [⟨0, 0, .str "X", .str "1"⟩, ⟨1, 1, .str "Y", .str "2"⟩]
    (by decide) rfl rfl (Or.inr (by decide)) (by decide) rfl
    (fun a h => by
      have h' : (some "Z:9" : Option String) = some a := h
      cases Option.some.inj h'
      decide)

/-! ## Claims C5 and C6: what events a dispatch can add to the trace -/

theorem mem_or_trans {P : Ev → Prop} {t0 t1 t2 : List Ev}
    (h21 : ∀ e ∈ t2, e ∈ t1 ∨ P e) (h10 : ∀ e ∈ t1, e ∈ t0 ∨ P e) :
    ∀ e ∈ t2, e ∈ t0 ∨ P e :=
  fun e he => (h21 e he).elim (fun h => h10 e h) Or.inr

theorem get_pool_trace_mem (cl : Cluster) (env : Env) (st : RunSt) (key : Option String)
    (args : List String) :
    ∀ e ∈ (get_pool cl env st key).2.trace, e ∈ st.trace ∨ evOK args e := by
  have hr := (get_random_pool_state env st).2.2.2.2
  cases key with
  | none =>
    intro e he
    exact Or.inl (hr ▸ (show e ∈ (get_random_pool env st).2.trace from he))
  | some k =>
    unfold get_pool
    dsimp only
    split
    · intro e he
      exact Or.inl (hr ▸ (show e ∈ (get_random_pool env st).2.trace from he))
    · split
      · exact fun e he => Or.inl he
      · split
        · exact fun e he => Or.inl he
        · split
          · exact fun e he => Or.inl he
          · split
            · split
              · intro e he
                rcases List.mem_append.mp he with h | h
                · exact Or.inl h
                · right
                  rw [List.mem_singleton.mp h]
                  trivial
              · exact fun e he => Or.inl he
            · exact fun e he => Or.inl he

theorem dispatch_pool_trace_mem (cl : Cluster) (env : Env) (st : RunSt) (args : List String) :
    ∀ e ∈ (dispatch_pool cl env st args).2.trace, e ∈ st.trace ∨ evOK args e := by
  unfold dispatch_pool
  split
  · exact get_pool_trace_mem cl env st none args
  · exact get_pool_trace_mem cl env st _ args

theorem reset_slots_trace_mem (env : Env) (kw : CKw) (st : RunSt) :
    ∀ e ∈ (reset_slots env kw st).2.trace,
      e ∈ st.trace ∨ (∃ ad, e = Ev.exec ad ["CLUSTER", "SLOTS"] []) ∨
        (∃ a2, e = Ev.refreshPoolCreated a2 kw) := by
  have hr := (get_random_pool_state env st).2.2.2.2
  unfold reset_slots
  split
  · next err st1 heq =>
    rw [heq] at hr
    intro e he
    exact Or.inl (hr ▸ he)
  · next p st1 heq =>
    rw [heq] at hr
    cases htp : env.topo st1.nTopo with
    | bad =>
      simp only [htp, reset_slots_core]
      intro e he
      rcases List.mem_append.mp he with h | h
      · exact Or.inl (hr ▸ h)
      · exact Or.inr (Or.inl ⟨_, by simpa using h⟩)
    | list es =>
      simp only [htp, reset_slots_core]
      intro e he
      rcases List.mem_append.mp he with h | h
      · rcases List.mem_append.mp h with h' | h'
        · exact Or.inl (hr ▸ h')
        · exact Or.inr (Or.inl ⟨_, by simpa using h'⟩)
      · rw [List.mem_map] at h
        obtain ⟨ak, hak, rfl⟩ := h
        have h2 := resetFold_created_mem kw es _ ak hak
        rcases h2 with h2 | h2
        · simp at h2
        · exact Or.inr (Or.inr ⟨ak.1, by rw [h2]⟩)

theorem tryStep_trace_mem (env : Env) (st : RunSt) (pool : Pool) (ask : Bool)
    (args : List String) (kw : Kw) :
    ∀ e ∈ (tryStep env st pool ask args kw).2.trace, e ∈ st.trace ∨ evOK args e := by
  unfold tryStep sendCmd
  dsimp only
  split
  · split
    · split <;>
      · intro e he
        rcases List.mem_append.mp he with h | h
        · rcases List.mem_append.mp h with h' | h'
          · exact Or.inl h'
          · right
            have he2 : e = Ev.exec (pool.addr.getD "") ["ASKING"] [] := by simpa using h'
            rw [he2]
            exact Or.inr (Or.inl rfl)
        · right
          have he2 : e = Ev.exec (pool.addr.getD "") args kw := by simpa using h
          rw [he2]
          exact Or.inl rfl
    · intro e he
      rcases List.mem_append.mp he with h | h
      · exact Or.inl h
      · right
        have he2 : e = Ev.exec (pool.addr.getD "") ["ASKING"] [] := by simpa using h
        rw [he2]
        exact Or.inr (Or.inl rfl)
    · intro e he
      rcases List.mem_append.mp he with h | h
      · exact Or.inl h
      · right
        have he2 : e = Ev.exec (pool.addr.getD "") ["ASKING"] [] := by simpa using h
        rw [he2]
        exact Or.inr (Or.inl rfl)
  · split <;>
    · intro e he
      rcases List.mem_append.mp he with h | h
      · exact Or.inl h
      · right
        have he2 : e = Ev.exec (pool.addr.getD "") args kw := by simpa using h
        rw [he2]
        exact Or.inl rfl

theorem recover_trace_mem (cl : Cluster) (env : Env) (st : RunSt) (kw2 : Kw) (pool : Pool)
    (e0 : PyErr) (args : List String) :
    ∀ e ∈ (recover cl env st kw2 pool e0).2.trace, e ∈ st.trace ∨ evOK args e := by
  unfold recover
  dsimp only
  split
  · exact fun e he => Or.inl he
  · split
    · exact fun e he => Or.inl he
    · next ca hca =>
      split
      · next e2 st2 heq =>
        have hrs := reset_slots_trace_mem env []
          { st with pools := (apopD st.pools ca).2, trace := st.trace ++ [.disconnect ca] }
        rw [heq] at hrs
        intro e he
        rcases hrs e he with h | h | h
        · rcases List.mem_append.mp h with h' | h'
          · exact Or.inl h'
          · right
            have he2 : e = Ev.disconnect ca := by simpa using h'
            rw [he2]
            trivial
        · obtain ⟨ad, rfl⟩ := h
          exact Or.inr (Or.inr (Or.inr rfl))
        · obtain ⟨a2, rfl⟩ := h
          exact Or.inr rfl
      · next u st2 heq =>
        have hrs := reset_slots_trace_mem env []
          { st with pools := (apopD st.pools ca).2, trace := st.trace ++ [.disconnect ca] }
        rw [heq] at hrs
        have hst2 : ∀ e ∈ st2.trace, e ∈ st.trace ∨ evOK args e := by
          intro e he
          rcases hrs e he with h | h | h
          · rcases List.mem_append.mp h with h' | h'
            · exact Or.inl h'
            · right
              have he2 : e = Ev.disconnect ca := by simpa using h'
              rw [he2]
              trivial
          · obtain ⟨ad, rfl⟩ := h
            exact Or.inr (Or.inr (Or.inr rfl))
          · obtain ⟨a2, rfl⟩ := h
            exact Or.inr rfl
        split
        all_goals try split
        all_goals try split
        all_goals try split
        all_goals exact hst2

theorem exec_cmd_trace_mem (cl : Cluster) (env : Env) :
    ∀ (fuel : Nat) (st : RunSt) (args : List String) (kw : Kw),
      ∀ ev ∈ (exec_cmd cl env fuel st args kw).2.trace, ev ∈ st.trace ∨ evOK args ev := by
  intro fuel
  induction fuel with
  | zero => intro st args kw ev hev; exact Or.inl hev
  | succ fuel ih =>
    intro st args kw
    rw [exec_cmd]
    cases hp : (popPool kw).1 with
    | some p =>
      simp only [hp, resolve_pool]
      have hst1 : ∀ ev ∈ st.trace, ev ∈ st.trace ∨ evOK args ev := fun ev hev => Or.inl hev
      split
      · next v st2 heq2 =>
        have hts := tryStep_trace_mem env st p (popAsk (popPool kw).2).1 args
          (popAsk (popPool kw).2).2
        rw [heq2] at hts
        exact mem_or_trans hts hst1
      · next e2 st2 heq2 =>
        have hts := tryStep_trace_mem env st p (popAsk (popPool kw).2).1 args
          (popAsk (popPool kw).2).2
        rw [heq2] at hts
        have hst2 := mem_or_trans hts hst1
        split
        · next err st3 heq3 =>
          have hrc := recover_trace_mem cl env st2 (popAsk (popPool kw).2).2 p e2 args
          rw [heq3] at hrc
          exact mem_or_trans hrc hst2
        · next kwN st3 heq3 =>
          have hrc := recover_trace_mem cl env st2 (popAsk (popPool kw).2).2 p e2 args
          rw [heq3] at hrc
          exact mem_or_trans (ih st3 args kwN) (mem_or_trans hrc hst2)
    | none =>
      simp only [hp, resolve_pool]
      split
      · next e st1 heq =>
        have hdt := dispatch_pool_trace_mem cl env st args
        rw [heq] at hdt
        exact hdt
      · next pool st1 heq =>
        have hst1 : ∀ ev ∈ st1.trace, ev ∈ st.trace ∨ evOK args ev := by
          have hdt := dispatch_pool_trace_mem cl env st args
          rw [heq] at hdt
          exact hdt
        split
        · next v st2 heq2 =>
          have hts := tryStep_trace_mem env st1 pool (popAsk (popPool kw).2).1 args
            (popAsk (popPool kw).2).2
          rw [heq2] at hts
          exact mem_or_trans hts hst1
        · next e2 st2 heq2 =>
          have hts := tryStep_trace_mem env st1 pool (popAsk (popPool kw).2).1 args
            (popAsk (popPool kw).2).2
          rw [heq2] at hts
          have hst2 := mem_or_trans hts hst1
          split
          · next err st3 heq3 =>
            have hrc := recover_trace_mem cl env st2 (popAsk (popPool kw).2).2 pool e2 args
            rw [heq3] at hrc
            exact mem_or_trans hrc hst2
          · next kwN st3 heq3 =>
            have hrc := recover_trace_mem cl env st2 (popAsk (popPool kw).2).2 pool e2 args
            rw [heq3] at hrc
            exact mem_or_trans (ih st3 args kwN) (mem_or_trans hrc hst2)

/-- C5, amended: every pool constructed during a topology refresh
performed by `execute_command`'s recovery path is built with *empty*
construction kwargs (the recovery calls `self.reset_slots()` with no
arguments), not with the cluster's stored `pool_kwargs`: any
`refreshPoolCreated` event a call adds to the trace carries `[]`. -/
theorem refresh_pools_built_default (cl : Cluster) (env : Env) (st : RunSt) (args : List String)
    (kw : Kw) (a : String) (k : CKw)
    (h : Ev.refreshPoolCreated a k ∈ (execute_command cl env st args kw).2.trace) :
    Ev.refreshPoolCreated a k ∈ st.trace ∨ k = [] := by
  rcases exec_cmd_trace_mem cl env (cl.max_resets + 2) st args kw _ h with h2 | h2
  · exact Or.inl h2
  · exact Or.inr h2

/-- C5, witness: the amended claim at the `MOVED` environment where the
recovery refresh constructs `X:1`'s pool (with empty kwargs, although the
cluster stores `[("socket_timeout", 5)]`). -/
theorem refresh_pools_built_default_witness :
    (Ev.refreshPoolCreated "X:1" [] ∈
      (execute_command clT envMoved stXY ["GET", "k"] []).2.trace) ∧
    (Ev.refreshPoolCreated "X:1" [] ∈ stXY.trace ∨ ([] : CKw) = []) :=
  ⟨by decide, refresh_pools_built_default clT envMoved stXY ["GET", "k"] [] "X:1" []
    (by decide)⟩

/-- C6, amended: every invocation of the pool's execute primitive that an
`execute_command` call adds to the trace carries exactly the original
positional arguments — apart from the separate bare `ASKING` calls and
the `CLUSTER SLOTS` topology queries — on every dispatch attempt,
including every retry; the *keyword* arguments, however, are not so
preserved (retries carry the machinery's `num_resets` counter, see the
counterexample). -/
theorem dispatch_args_preserved (cl : Cluster) (env : Env) (st : RunSt) (args : List String)
    (kw : Kw) (ad : String) (a2 : List String) (kws : Kw)
    (h : Ev.exec ad a2 kws ∈ (execute_command cl env st args kw).2.trace) :
    Ev.exec ad a2 kws ∈ st.trace ∨
      a2 = args ∨ a2 = ["ASKING"] ∨ a2 = ["CLUSTER", "SLOTS"] := by
  rcases exec_cmd_trace_mem cl env (cl.max_resets + 2) st args kw _ h with h2 | h2
  · exact Or.inl h2
  · exact Or.inr h2

/-- C6, witness: the amended claim at the retried dispatch of the
always-`MOVED` run (the retry carries the original `["GET", "k"]`). -/
theorem dispatch_args_preserved_witness :
    (Ev.exec "X:1" ["GET", "k"] [("num_resets", KwVal.nat 1)] ∈
      (execute_command (clM 0) envMoved stXY ["GET", "k"] []).2.trace) ∧
    (Ev.exec "X:1" ["GET", "k"] [("num_resets", KwVal.nat 1)] ∈ stXY.trace ∨
      ["GET", "k"] = ["GET", "k"] ∨ ["GET", "k"] = ["ASKING"] ∨
      ["GET", "k"] = ["CLUSTER", "SLOTS"]) :=
  ⟨by decide, dispatch_args_preserved (clM 0) envMoved stXY ["GET", "k"] [] "X:1"
    ["GET", "k"] [("num_resets", KwVal.nat 1)] (by decide)⟩

/-! ## Claim C2: the retry ceiling bound -/

/-- The steady cycle of an always-`MOVED` run: from a state whose
registry holds `X:1` and `Y:2`, a dispatch with `num_resets = M + 1 - j`
carried in the kwargs performs `j + 1` further pool dispatches and then
raises the retry-ceiling error (each cycle: dispatch fails with
`MOVED 1 X:1`, ceiling not yet hit, evict, refresh from `topoXY`,
re-resolve `X:1`, recurse with the counter incremented). -/
theorem moved_cycle (M : Nat) :
    ∀ (j : Nat), ∀ (f : Nat) (st : RunSt),
      j ≤ M + 1 → j + 1 ≤ f →
      st.pools = [("X:1", pX), ("Y:2", pY)] →
      (exec_cmd (clM M) envMoved f st ["GET", "k"]
          [("num_resets", .nat (M + 1 - j)), ("ask", .bool false), ("pool", .pool pX)]).1 =
        .error (.clusterError "Too many resets happened." []) ∧
      (exec_cmd (clM M) envMoved f st ["GET", "k"]
          [("num_resets", .nat (M + 1 - j)), ("ask", .bool false), ("pool", .pool pX)]).2.nExec =
        st.nExec + (j + 1) := by
  have hsw : startsWithS "MOVED " "MOVED 1 X:1" = true := by decide
  have hsa : startsWithS "ASK " "MOVED 1 X:1" = false := by decide
  have hri : (redirect_info "MOVED 1 X:1").2 = some "X:1" := by decide
  intro j
  induction j with
  | zero =>
    intro f st _ hf hp
    obtain ⟨f', rfl⟩ : ∃ f', f = f' + 1 := ⟨f - 1, by omega⟩
    rw [exec_cmd]
    simp [popPool, popAsk, apopD, resolve_pool, tryStep, sendCmd, envMoved, recover,
      popNumResets, pyErrMsg, clM, pX, truthy, Nat.lt_succ_self, hsw, hsa]
  | succ j ihj =>
    intro f st hj hf hp
    obtain ⟨f', rfl⟩ : ∃ f', f = f' + 1 := ⟨f - 1, by omega⟩
    have hnlt : ¬ (M < M - j) := by omega
    have harith : M - j + 1 = M + 1 - j := by omega
    rw [exec_cmd]
    have key : ∀ (st' : RunSt), st'.pools = [("X:1", pX), ("Y:2", pY)] →
        st'.nExec = st.nExec + 1 →
        (exec_cmd (clM M) envMoved f' st' ["GET", "k"]
            [("num_resets", .nat (M + 1 - j)), ("ask", .bool false), ("pool", .pool pX)]).1 =
          .error (.clusterError "Too many resets happened." []) ∧
        (exec_cmd (clM M) envMoved f' st' ["GET", "k"]
            [("num_resets", .nat (M + 1 - j)), ("ask", .bool false), ("pool", .pool pX)]).2.nExec =
          st.nExec + (j + 1 + 1) := by
      intro st' h1 h2
      have hc := ihj f' st' (by omega) (by omega) h1
      refine ⟨hc.1, ?_⟩
      rw [hc.2, h2]
      omega
    simp [popPool, popAsk, apopD, resolve_pool, tryStep, sendCmd, envMoved, recover,
      popNumResets, pyErrMsg, clM, hp, hsw, hsa, hri, hnlt, harith, reset_slots,
      get_random_pool, reset_slots_core, resetFold, resetEntry, stringconv, fmtPy,
      assignRange, aset, aget, topoXY, pX, pY, entryAddr, truthy]
    apply key
    · simp [pX, pY]
    · simp

/-- C2, amended: for *every* configured `max_resets = M`, when the pool
primitive raises `MOVED 1 X:1` on every attempt and every refreshed
topology contains the redirect target, `execute_command` terminates with
the retry-ceiling `ClusterError('Too many resets happened.')` after
exactly `M + 2` dispatch attempts (`nExec` counts the dispatch loop's
pool `execute` invocations) — one more than the `max_resets + 1` the
spec's off-by-one note predicts, because the ceiling check `num_resets >
max_resets` reads the counter popped *before* it is incremented. -/
theorem retry_ceiling_exact (M : Nat) :
    (execute_command (clM M) envMoved stXY ["GET", "k"] []).1 =
      .error (.clusterError "Too many resets happened." []) ∧
    (execute_command (clM M) envMoved stXY ["GET", "k"] []).2.nExec = M + 2 := by
  have hsw : startsWithS "MOVED " "MOVED 1 X:1" = true := by decide
  have hsa : startsWithS "ASK " "MOVED 1 X:1" = false := by decide
  have hri : (redirect_info "MOVED 1 X:1").2 = some "X:1" := by decide
  have hM1 : M + 1 - M = 1 := by omega
  have hnlt : ¬ (M < 0) := by omega
  unfold execute_command
  rw [show (clM M).max_resets + 2 = (M + 1) + 1 from rfl]
  rw [exec_cmd]
  have key : ∀ (st' : RunSt), st'.pools = [("X:1", pX), ("Y:2", pY)] →
      st'.nExec = 1 →
      (exec_cmd (clM M) envMoved (M + 1) st' ["GET", "k"]
          [("num_resets", .nat 1), ("ask", .bool false), ("pool", .pool pX)]).1 =
        .error (.clusterError "Too many resets happened." []) ∧
      (exec_cmd (clM M) envMoved (M + 1) st' ["GET", "k"]
          [("num_resets", .nat 1), ("ask", .bool false), ("pool", .pool pX)]).2.nExec =
        M + 2 := by
    intro st' h1 h2
    have hc := moved_cycle M M (M + 1) st' (by omega) (by omega) h1
    rw [hM1] at hc
    refine ⟨hc.1, ?_⟩
    rw [hc.2, h2]
    omega
  simp [popPool, popAsk, apopD, resolve_pool, dispatch_pool, get_pool, tryStep, sendCmd,
    envMoved, recover, popNumResets, pyErrMsg, clM, stXY, hsw, hsa, hri, hnlt, reset_slots,
    get_random_pool, reset_slots_core, resetFold, resetEntry, stringconv, fmtPy,
    assignRange, aset, aget, topoXY, pX, pY, entryAddr, truthy]
  apply key
  · simp [pX, pY]
  · simp

end RedisCluster
